import Mathlib

/-!
Verification development for the robot control core of `little_eighteen`
(`app/services/core.py`, `app/utils/regex_command.py`, `app/config.py`,
`app/main.py`).  The Python code is shallowly embedded: pure computations
become Lean functions, the mutable object state becomes explicit state
records, machine floats become exact rationals, and the asyncio loops
become explicit step functions over those records.
-/

namespace LittleEighteen

/-! ## Configuration constants (`app/config.py`, default values) -/

def IN1 : ℕ := 18
def IN2 : ℕ := 23
def IN3 : ℕ := 24
def IN4 : ℕ := 25
def IN5 : ℕ := 12
def IN6 : ℕ := 16
def IN7 : ℕ := 20
def IN8 : ℕ := 21

def DEFAULT_TEMPERATURE : ℚ := 20
def DISTANCE_BUFFER_SIZE : ℕ := 5

/-- Fixed obstacle threshold `DISTANCE_DETECTION_THRESHOLD = 20` (config.py line 37);
the config comment says the "new logic" should use the dynamic parameters below. -/
def DISTANCE_DETECTION_THRESHOLD : ℚ := 20

def DEFAULT_SPEED : ℤ := 50
def MIN_SPEED_LIMIT : ℤ := 20

def OBSTACLE_BASE_DISTANCE : ℚ := 10
def OBSTACLE_SPEED_FACTOR : ℚ := 2 / 5

def MODE_FORWARD : ℕ := 1
def MODE_BACK : ℕ := 2
def MODE_STOP : ℕ := 3

/-- `CommandExecutor.GRACE_PERIOD_DURATION = 2.0` seconds (regex_command.py line 33). -/
def GRACE_PERIOD_DURATION : ℚ := 2

/-! ## Motor direction pins (`MotorControl.__set_motor_state` and friends) -/

/-- GPIO output level of a direction pin. -/
inductive PinLevel where
  | high
  | low
deriving DecidableEq, Repr

/-- Per-pin logical inversion (HIGH ↔ LOW). -/
def invertLevel : PinLevel → PinLevel
  | .high => .low
  | .low => .high

/-- Inversion of a two-pin pattern, pin by pin. -/
def invertPattern (p : PinLevel × PinLevel) : PinLevel × PinLevel :=
  (invertLevel p.1, invertLevel p.2)

/-- Embedding of `MotorControl.__set_motor_state(motor_in1, motor_in2, mode)`:
the two-pin HIGH/LOW pattern written for a wheel whose direction pins are
`(in1, in2)` under `mode`.  The method inverts the pattern for the pairs
whose first pin is `IN5` or `IN7`; for any other mode value it writes
nothing (`none`). -/
def set_motor_state (in1 : ℕ) (_in2 : ℕ) (mode : ℕ) : Option (PinLevel × PinLevel) :=
  let inverted : Bool := in1 = IN5 ∨ in1 = IN7
  if mode = MODE_FORWARD then
    some (if inverted then (.high, .low) else (.low, .high))
  else if mode = MODE_BACK then
    some (if inverted then (.low, .high) else (.high, .low))
  else if mode = MODE_STOP then
    some (.low, .low)
  else
    none

/-- A motion primitive as written in the source: the ordered list of
`_control_motor_pair(in1, in2, mode)` calls it performs. -/
abbrev MotionPrimitive := List ((ℕ × ℕ) × ℕ)

def move_forward : MotionPrimitive :=
  [((IN1, IN2), MODE_FORWARD), ((IN3, IN4), MODE_FORWARD),
   ((IN5, IN6), MODE_FORWARD), ((IN7, IN8), MODE_FORWARD)]

def move_back : MotionPrimitive :=
  [((IN1, IN2), MODE_BACK), ((IN3, IN4), MODE_BACK),
   ((IN5, IN6), MODE_BACK), ((IN7, IN8), MODE_BACK)]

def move_left : MotionPrimitive :=
  [((IN1, IN2), MODE_FORWARD), ((IN3, IN4), MODE_BACK),
   ((IN5, IN6), MODE_FORWARD), ((IN7, IN8), MODE_BACK)]

def move_right : MotionPrimitive :=
  [((IN1, IN2), MODE_BACK), ((IN3, IN4), MODE_FORWARD),
   ((IN5, IN6), MODE_BACK), ((IN7, IN8), MODE_FORWARD)]

def turn_left : MotionPrimitive :=
  [((IN1, IN2), MODE_FORWARD), ((IN3, IN4), MODE_FORWARD),
   ((IN5, IN6), MODE_BACK), ((IN7, IN8), MODE_BACK)]

def turn_right : MotionPrimitive :=
  [((IN1, IN2), MODE_BACK), ((IN3, IN4), MODE_BACK),
   ((IN5, IN6), MODE_FORWARD), ((IN7, IN8), MODE_FORWARD)]

def move_left_forward : MotionPrimitive :=
  [((IN1, IN2), MODE_STOP), ((IN3, IN4), MODE_FORWARD),
   ((IN5, IN6), MODE_STOP), ((IN7, IN8), MODE_BACK)]

def move_right_forward : MotionPrimitive :=
  [((IN1, IN2), MODE_BACK), ((IN3, IN4), MODE_STOP),
   ((IN5, IN6), MODE_FORWARD), ((IN7, IN8), MODE_STOP)]

def move_left_back : MotionPrimitive :=
  [((IN1, IN2), MODE_FORWARD), ((IN3, IN4), MODE_STOP),
   ((IN5, IN6), MODE_BACK), ((IN7, IN8), MODE_STOP)]

def move_right_back : MotionPrimitive :=
  [((IN1, IN2), MODE_STOP), ((IN3, IN4), MODE_STOP),
   ((IN5, IN6), MODE_STOP), ((IN7, IN8), MODE_FORWARD)]

/-- The four diagonal primitives, in source order. -/
def diagonalPrimitives : List MotionPrimitive :=
  [move_left_forward, move_right_forward, move_left_back, move_right_back]

/-- All ten motion primitives of `MotorControl`. -/
def allMotionPrimitives : List MotionPrimitive :=
  [move_forward, move_back, move_left, move_right, turn_left, turn_right,
   move_left_forward, move_right_forward, move_left_back, move_right_back]

/-- Number of wheels a primitive actually drives (mode other than `MODE_STOP`). -/
def drivenWheelCount (p : MotionPrimitive) : ℕ :=
  (p.filter (fun a => a.2 ≠ MODE_STOP)).length

/-- Number of wheels a primitive leaves neutral (`MODE_STOP`). -/
def neutralWheelCount (p : MotionPrimitive) : ℕ :=
  (p.filter (fun a => a.2 = MODE_STOP)).length

/-- Left-side wheel pin pairs as assigned by `control_left_front` (IN7, IN8)
and `control_left_back` (IN5, IN6). -/
def leftWheelPairs : List (ℕ × ℕ) := [(IN7, IN8), (IN5, IN6)]

/-- Right-side wheel pin pairs as assigned by `control_right_front` (IN1, IN2)
and `control_right_back` (IN3, IN4). -/
def rightWheelPairs : List (ℕ × ℕ) := [(IN1, IN2), (IN3, IN4)]

/-- The two driven (non-neutral) direction modes. -/
def drivenModes : List ℕ := [ MODE_FORWARD, MODE_BACK]

/-! ## SafetyMonitor state (`CommandExecutor`, regex_command.py)

The grace-period fields `_distance_monitor_grace_period_active` and
`_distance_monitor_grace_period_end_time`, and the obstacle test of
`_distance_monitor_loop`.  `time.time()` is passed in explicitly as a
rational `now`. -/

structure MonitorState where
  grace_active : Bool
  grace_end : ℚ
deriving DecidableEq, Repr

/-- Result of the `measure_distance` call as seen by the monitor loop:
Python `None` becomes `none`, every numeric reading (including the `-1`
failure sentinel) becomes `some d`. -/
abbrev DistReading := Option ℚ

/-- The measurement-and-check part of one `_distance_monitor_loop`
iteration: `dist` is what `measure_distance` returned; the result records
(state, measurement-was-taken, stop-was-submitted).  The source check is
`if dist is not None and dist != -1: if 0 < dist < DISTANCE_DETECTION_THRESHOLD:
await self.add_command("stop")`. -/
def monitorMeasureStep (ms : MonitorState) (dist : DistReading) :
    MonitorState × Bool × Bool :=
  match dist with
  | none => (ms, true, false)
  | some d =>
    if d ≠ -1 ∧ 0 < d ∧ d < DISTANCE_DETECTION_THRESHOLD then
      (ms, true, true)
    else
      (ms, true, false)

/-- One full iteration of `_distance_monitor_loop` at wall-clock time `now`:
if the grace period is active and unexpired the tick is skipped (no
measurement, no stop); an expired grace period is cleared first and the
tick then proceeds to measure. -/
def distanceMonitorTick (ms : MonitorState) (now : ℚ) (dist : DistReading) :
    MonitorState × Bool × Bool :=
  if ms.grace_active then
    if now < ms.grace_end then
      (ms, false, false)
    else
      monitorMeasureStep { grace_active := false, grace_end := ms.grace_end } dist
  else
    monitorMeasureStep ms dist

/-- Effect of `CommandExecutor.add_command` on the grace-period fields:
`"stop"` clears the active flag, `"move_back"` arms a grace period ending
`GRACE_PERIOD_DURATION` after the submission time, all other commands
leave the fields alone. -/
def addCommandGrace (ms : MonitorState) (now : ℚ) (cmd : String) : MonitorState :=
  if cmd = "stop" then
    { grace_active := false, grace_end := ms.grace_end }
  else if cmd = "move_back" then
    { grace_active := true, grace_end := now + GRACE_PERIOD_DURATION }
  else
    ms

/-- The dynamic obstacle threshold.  Modelled from the spec:
`threshold = OBSTACLE_BASE_DISTANCE + current_speed × OBSTACLE_SPEED_FACTOR`;
the constants exist in `app/config.py` (lines 44-46) but no code under
`src/` reads them — the live monitor loop compares against the fixed
`DISTANCE_DETECTION_THRESHOLD` instead. -/
def specDynamicThreshold (speed : ℚ) : ℚ :=
  OBSTACLE_BASE_DISTANCE + speed * OBSTACLE_SPEED_FACTOR

/-! ## Command queue (`CommandExecutor.add_command` / `_execute_commands_loop`)

The asyncio queue is modelled as a list of entries tagged with their
submission index; `_execute_commands_loop` is modelled by an explicit
dequeue step, and a run is an arbitrary interleaving of submissions and
dequeues. -/

structure DispatchState where
  queue : List (ℕ × String)
  nextId : ℕ
  execLog : List (ℕ × String)
deriving DecidableEq, Repr

/-- The drain loop of `add_command("stop")`:
`while not self.command_queue.empty(): self.command_queue.get_nowait()`. -/
def drainQueue : List (ℕ × String) → List (ℕ × String)
  | [] => []
  | _ :: rest => drainQueue rest

/-- `CommandExecutor.add_command(command)` on the queue: `"stop"` first
drains every pending entry and then enqueues itself; every other command
is appended at the tail.  (The grace-period side effects are
`addCommandGrace` above.) -/
def addCommand (s : DispatchState) (c : String) : DispatchState :=
  if c = "stop" then
    { queue := drainQueue s.queue ++ [(s.nextId, "stop")],
      nextId := s.nextId + 1,
      execLog := s.execLog }
  else
    { queue := s.queue ++ [(s.nextId, c)],
      nextId := s.nextId + 1,
      execLog := s.execLog }

/-- One dequeue by `_execute_commands_loop`: the head entry (if any) is
taken from the queue and begins execution (recorded in `execLog`). -/
def execStep (s : DispatchState) : DispatchState :=
  match s.queue with
  | [] => s
  | e :: rest =>
    { queue := rest, nextId := s.nextId, execLog := s.execLog ++ [e] }

/-- An event of the queue system: a submission through `add_command`, or
one dequeue by the execution loop. -/
inductive QEvent where
  | submit (c : String)
  | exec
deriving DecidableEq, Repr

def dispatchStep (s : DispatchState) : QEvent → DispatchState
  | .submit c => addCommand s c
  | .exec => execStep s

def dispatchRun (s : DispatchState) (evs : List QEvent) : DispatchState :=
  evs.foldl dispatchStep s

/-! ## Application startup (`app/main.py` lifespan handler)

Python resolves `command_executor.start_tasks` by attribute lookup on the
`CommandExecutor` instance; a missing attribute raises `AttributeError`,
which lands in the `except` branch of `lifespan`, which logs and calls
`sys.exit(1)`. -/

/-- The attributes a `CommandExecutor` instance has: the fields assigned in
`__init__` and the methods defined on the class (regex_command.py). -/
def commandExecutorAttrs : List String :=
  ["control", "logger", "command_queue", "_running",
   "_command_task", "_monitor_task",
   "_distance_monitor_grace_period_active",
   "_distance_monitor_grace_period_end_time",
   "GRACE_PERIOD_DURATION", "_executor",
   "start_threads", "stop_threads", "add_command",
   "_execute_commands_loop", "_distance_monitor_loop"]

/-- The method name `lifespan` awaits at startup (main.py line 92). -/
def lifespanStartupCall : String := "start_tasks"

/-- The method name `lifespan` awaits at shutdown (main.py line 108). -/
def lifespanShutdownCall : String := "stop_tasks"

/-- Outcome of the `lifespan` startup path. -/
inductive StartupOutcome where
  | loopsStarted
  | exited
deriving DecidableEq, Repr

/-- The `try` block of `lifespan` up to `yield`: the awaited call
`command_executor.start_tasks()` resolves only if the instance has that
attribute; otherwise the `AttributeError` is caught by the `except` branch,
which logs and exits the process. -/
def runLifespanStartup : StartupOutcome :=
  if lifespanStartupCall ∈ commandExecutorAttrs then
    StartupOutcome.loopsStarted
  else
    StartupOutcome.exited

/-! ## MotorControl state (`app/services/core.py`)

Python instance attributes that are assigned only at the tail of
`_save_speed` are modelled as `Option` fields: `none` means the attribute
does not exist yet, and reading it raises `AttributeError`.
`persisted_speed` models the `speed` entry of `runtime_state.json`. -/

structure MotorState where
  current_speed : ℤ
  persisted_speed : Option ℤ
  distance_detection_enabled : Option Bool
  temperature : Option ℚ
  distance_buffer : Option (List ℚ)
  buffer_size : Option ℕ
deriving DecidableEq, Repr

/-- The clamp `max(MIN_SPEED_LIMIT, min(100, speed))` used by `set_speed`
and `_load_speed`. -/
def clampSpeed (speed : ℤ) : ℤ :=
  max MIN_SPEED_LIMIT (min 100 speed)

/-- Embedding of `MotorControl._save_speed(speed)`.  If the persisted state
already holds `speed`, the method RETURNS EARLY out of the `with` block
(core.py lines 142-143) and the four assignments at the method tail
(lines 156-159) never run; otherwise the file is updated and the tail
assigns `_distance_detection_enabled = True`, `temperature =
DEFAULT_TEMPERATURE`, `distance_buffer = []`, `buffer_size =
DISTANCE_BUFFER_SIZE`. -/
def save_speed (s : MotorState) (speed : ℤ) : MotorState :=
  if s.persisted_speed = some speed then
    s
  else
    { s with
      persisted_speed := some speed,
      distance_detection_enabled := some true,
      temperature := some DEFAULT_TEMPERATURE,
      distance_buffer := some ([] : List ℚ),
      buffer_size := some DISTANCE_BUFFER_SIZE }

/-- Embedding of `MotorControl.set_speed(speed)`: clamp, store, re-apply
PWM duty cycles (`_apply_speed`, which touches no modelled field), then
`_save_speed(safe_speed)`. -/
def set_speed (s : MotorState) (speed : ℤ) : MotorState :=
  save_speed { s with current_speed := clampSpeed speed } (clampSpeed speed)

/-- Embedding of `MotorControl._load_speed` restricted to the path where no
legacy `settings.json` exists (so the migration branch that calls
`_save_speed` is not taken): read the clamped `speed` entry of
`runtime_state.json` if present, else `DEFAULT_SPEED`. -/
def load_speed (persisted : Option ℤ) : ℤ :=
  match persisted with
  | some v => clampSpeed v
  | none => DEFAULT_SPEED

/-- Embedding of `MotorControl.__init__` on the non-migration load path:
`_current_speed = max(MIN_SPEED_LIMIT, saved_speed)` is set, `stop()` is
called (it touches only pins and duty cycles), and the four late-bound
attributes are never assigned. -/
def initMotorState (persisted : Option ℤ) : MotorState :=
  { current_speed := max MIN_SPEED_LIMIT (load_speed persisted),
    persisted_speed := persisted,
    distance_detection_enabled := none,
    temperature := none,
    distance_buffer := none,
    buffer_size := none }

/-! ## Ultrasonic measurement (`MotorControl.measure_distance`) -/

/-- Behaviour of the echo line during one measurement: the wait for the
rising edge times out, the wait for the falling edge times out, or a clean
pulse of the given duration (seconds) is observed. -/
inductive EchoEnv where
  | riseTimeout
  | fallTimeout
  | pulse (duration : ℚ)
deriving DecidableEq, Repr

/-- Insertion into a sorted list (ascending). -/
def insertSorted (x : ℚ) : List ℚ → List ℚ
  | [] => [x]
  | y :: ys => if x ≤ y then x :: y :: ys else y :: insertSorted x ys

/-- Insertion sort, ascending. -/
def sortAsc : List ℚ → List ℚ
  | [] => []
  | x :: xs => insertSorted x (sortAsc xs)

/-- Embedding of Python `statistics.median`: middle element of the sorted
list for odd length, mean of the two middle elements for even length. -/
def median (l : List ℚ) : ℚ :=
  let s := sortAsc l
  let n := s.length
  if n % 2 = 1 then
    s.getD (n / 2) 0
  else
    (s.getD (n / 2 - 1) 0 + s.getD (n / 2) 0) / 2

/-- Python `round(x, 2)` modelled over exact rationals as rounding to the
nearest multiple of 1/100 (tie behaviour is irrelevant at every input used
here). -/
def round2 (x : ℚ) : ℚ :=
  (⌊x * 100 + 1 / 2⌋ : ℚ) / 100

/-- `speed_of_sound = 331.3 + 0.606 * self.temperature` (m/s). -/
def speedOfSound (temperature : ℚ) : ℚ :=
  3313 / 10 + (606 / 1000) * temperature

/-- `distance = pulse_duration * speed_of_sound / 2 * 100` (cm). -/
def rawDistance (temperature duration : ℚ) : ℚ :=
  duration * speedOfSound temperature / 2 * 100

/-- Embedding of `MotorControl.measure_distance()`.  The result is
`Except`: `.error` models an uncaught `AttributeError` from reading an
attribute that was never assigned; `.ok (ret, s, touched)` gives the
Python return value (`none` = Python `None`, `some (-1)` = the failure
sentinel), the state after the call, and whether the trigger pin was
pulsed (hardware touched).  Attributes are read in source order:
`_distance_detection_enabled` first; `temperature`, `distance_buffer` and
`buffer_size` only after both echo edges arrived. -/
def measure_distance (s : MotorState) (env : EchoEnv) :
    Except String (DistReading × MotorState × Bool) :=
  match s.distance_detection_enabled with
  | none => Except.error "AttributeError"
  | some false => Except.ok (none, s, false)
  | some true =>
    match env with
    | .riseTimeout => Except.ok (some (-1), s, true)
    | .fallTimeout => Except.ok (some (-1), s, true)
    | .pulse d =>
      match s.temperature, s.distance_buffer, s.buffer_size with
      | some T, some buf, some bs =>
        let dist := rawDistance T d
        let appended := buf ++ [dist]
        let buf2 := if appended.length > bs then appended.tail else appended
        if buf2 ≠ [] then
          Except.ok (some (round2 (median buf2)),
            { s with distance_buffer := some buf2 }, true)
        else
          Except.ok (some (-1), { s with distance_buffer := some buf2 }, true)
      | _, _, _ => Except.error "AttributeError"

/-- Run a sequence of measurements, threading the state; returns the final
state and the list of return values (failing on the first
`AttributeError`). -/
def measureSeq (s : MotorState) : List EchoEnv → Except String (MotorState × List DistReading)
  | [] => Except.ok (s, [])
  | e :: es =>
    match measure_distance s e with
    | Except.error msg => Except.error msg
    | Except.ok (r, s2, _) =>
      match measureSeq s2 es with
      | Except.error msg => Except.error msg
      | Except.ok (sFin, rs) => Except.ok (sFin, r :: rs)

/-- Invariant for the priority-drain argument: relative to a submission
index `k` and the execution log `base` as it stood at submission time,
every queued entry has index at least `k`, the id counter is at least `k`,
and every executed entry either predates the submission or has index at
least `k`. -/
def idsBounded (k : ℕ) (base : List (ℕ × String)) (s : DispatchState) : Prop :=
  (∀ e ∈ s.queue, k ≤ e.1) ∧ k ≤ s.nextId ∧
    ∀ e ∈ s.execLog, e ∈ base ∨ k ≤ e.1

/-- Convenience wrapper: the state with its sample buffer replaced. -/
def withBuffer (s : MotorState) (l : List ℚ) : MotorState :=
  { s with distance_buffer := some l }

/-! ## Theorems -/

theorem drainQueue_eq_nil (l : List (ℕ × String)) : drainQueue l = [] := by
  induction l with
  | nil => rfl
  | cons x xs ih => simpa [drainQueue] using ih

theorem idsBounded_step (k : ℕ) (base : List (ℕ × String)) (s : DispatchState)
    (ev : QEvent) (h : idsBounded k base s) :
    idsBounded k base (dispatchStep s ev) := by
  obtain ⟨hq, hn, hl⟩ := h
  cases ev with
  | submit c =>
    by_cases hc : c = "stop"
    · subst hc
      refine ⟨?_, ?_, ?_⟩
      · intro e he
        simp [dispatchStep, addCommand, drainQueue_eq_nil] at he
        rw [he]
        exact hn
      · simpa [dispatchStep, addCommand] using Nat.le_succ_of_le hn
      · simpa [dispatchStep, addCommand] using hl
    · refine ⟨?_, ?_, ?_⟩
      · intro e he
        simp [dispatchStep, addCommand, hc] at he
        rcases he with he | he
        · exact hq e he
        · rw [he]
          exact hn
      · simpa [dispatchStep, addCommand, hc] using Nat.le_succ_of_le hn
      · simpa [dispatchStep, addCommand, hc] using hl
  | exec =>
    cases hqueue : s.queue with
    | nil => simpa [dispatchStep, execStep, hqueue] using ⟨hq, hn, hl⟩
    | cons e rest =>
      refine ⟨?_, ?_, ?_⟩
      · intro x hx
        simp only [dispatchStep, execStep, hqueue] at hx
        exact hq x (by simp [hqueue, hx])
      · simpa [dispatchStep, execStep, hqueue] using hn
      · intro x hx
        simp only [dispatchStep, execStep, hqueue, List.mem_append,
          List.mem_singleton] at hx
        rcases hx with hx | hx
        · exact hl x hx
        · exact Or.inr (hx ▸ hq e (by simp [hqueue]))

theorem idsBounded_run (k : ℕ) (base : List (ℕ × String)) (s : DispatchState)
    (evs : List QEvent) (h : idsBounded k base s) :
    idsBounded k base (dispatchRun s evs) := by
  induction evs generalizing s with
  | nil => simpa [dispatchRun] using h
  | cons ev evs ih =>
    have h1 := idsBounded_step k base s ev h
    simpa [dispatchRun] using ih (dispatchStep s ev) (by simpa [dispatchRun] using h1)

theorem addCommand_stop_queue (s : DispatchState) :
    (addCommand s "stop").queue = [(s.nextId, "stop")] := by
  simp [addCommand, drainQueue_eq_nil]

theorem idsBounded_after_stop (s : DispatchState) :
    idsBounded s.nextId s.execLog (addCommand s "stop") := by
  refine ⟨?_, ?_, ?_⟩
  · intro e he
    rw [addCommand_stop_queue] at he
    simp only [List.mem_singleton] at he
    simp [he]
  · simp [addCommand]
  · intro e he
    simp [addCommand] at he
    exact Or.inl he

theorem bufferUpdate_eq_drop (buf : List ℚ) (x : ℚ) (bs : ℕ) (h : buf.length ≤ bs) :
    (if (buf ++ [x]).length > bs then (buf ++ [x]).tail else buf ++ [x])
      = (buf ++ [x]).drop (buf.length + 1 - bs) := by
  rcases Nat.lt_or_ge buf.length bs with hlt | hge
  · have hnot : ¬ (buf ++ [x]).length > bs := by
      simp only [List.length_append, List.length_singleton]
      omega
    have hzero : buf.length + 1 - bs = 0 := by omega
    rw [if_neg hnot, hzero, List.drop_zero]
  · have heq : buf.length = bs := le_antisymm h hge
    have hgt : (buf ++ [x]).length > bs := by
      simp only [List.length_append, List.length_singleton]
      omega
    have hone : buf.length + 1 - bs = 1 := by omega
    rw [if_pos hgt, hone, List.drop_one]

theorem bufferUpdate_length (buf : List ℚ) (x : ℚ) (bs : ℕ) (h : buf.length ≤ bs) :
    ((buf ++ [x]).drop (buf.length + 1 - bs)).length = min (buf.length + 1) bs := by
  simp only [List.length_drop, List.length_append, List.length_singleton]
  omega

theorem bufferUpdate_ne_nil (buf : List ℚ) (x : ℚ) (bs : ℕ) (h : buf.length ≤ bs)
    (hbs : 0 < bs) : (buf ++ [x]).drop (buf.length + 1 - bs) ≠ [] := by
  have hlen := bufferUpdate_length buf x bs h
  intro hnil
  rw [hnil] at hlen
  simp only [List.length_nil] at hlen
  omega

/-- Claim C1.  The claim says a tick outside a grace period submits a stop
exactly when a valid sample is below the dynamic threshold
`OBSTACLE_BASE_DISTANCE + speed × OBSTACLE_SPEED_FACTOR` (30 cm at speed
50), so a 25 cm sample should stop.  The code instead compares against the
fixed `DISTANCE_DETECTION_THRESHOLD = 20`: at the failing input of the claim
(no grace period, speed 50, valid 25 cm sample) no stop is submitted even
though 25 is below the dynamic threshold 30; the monitor stops only below
20 (e.g. at 15 cm), and the speed never enters the comparison at all. -/
theorem C1_monitor_uses_fixed_threshold :
    distanceMonitorTick ⟨false, 0⟩ 0 (some 25) = (⟨false, 0⟩, true, false) ∧
    distanceMonitorTick ⟨false, 0⟩ 0 (some 35) = (⟨false, 0⟩, true, false) ∧
    distanceMonitorTick ⟨false, 0⟩ 0 (some 15) = (⟨false, 0⟩, true, true) ∧
    specDynamicThreshold 50 = 30 ∧
    (25 : ℚ) < specDynamicThreshold 50 ∧
    DISTANCE_DETECTION_THRESHOLD = 20 := by
  refine ⟨by rfl, by rfl, by rfl, ?_, ?_, by rfl⟩ <;>
    norm_num [specDynamicThreshold, OBSTACLE_BASE_DISTANCE, OBSTACLE_SPEED_FACTOR]

/-- Claim C2: the startup path of the `lifespan` handler awaits
`command_executor.start_tasks()`, but `CommandExecutor` defines only
`start_threads`/`stop_threads` (no `start_tasks` or `stop_tasks`
attribute), so every startup raises `AttributeError`, lands in the
`except` branch that logs and exits the process, and the command-dispatch
and distance-monitor loops are never started. -/
theorem C2_startup_always_exits :
    runLifespanStartup = StartupOutcome.exited ∧
    runLifespanStartup ≠ StartupOutcome.loopsStarted ∧
    lifespanStartupCall ∉ commandExecutorAttrs ∧
    lifespanShutdownCall ∉ commandExecutorAttrs ∧
    "start_threads" ∈ commandExecutorAttrs ∧
    "stop_threads" ∈ commandExecutorAttrs := by
  decide

/-- Claim C7.  The claim says each of the four diagonal primitives drives
exactly two wheels and leaves exactly two neutral.  That holds for
`move_left_forward`, `move_right_forward` and `move_left_back`, but
`move_right_back` sets three wheel pairs to `MODE_STOP` and drives only
the `(IN7, IN8)` pair — it drives one wheel, fewer than two. -/
theorem C7_move_right_back_drives_one :
    drivenWheelCount move_left_forward = 2 ∧ neutralWheelCount move_left_forward = 2 ∧
    drivenWheelCount move_right_forward = 2 ∧ neutralWheelCount move_right_forward = 2 ∧
    drivenWheelCount move_left_back = 2 ∧ neutralWheelCount move_left_back = 2 ∧
    drivenWheelCount move_right_back = 1 ∧ neutralWheelCount move_right_back = 3 := by
  decide

/-- Claim C8: for every driven mode, the two-pin pattern
`__set_motor_state` writes to a right-side wheel pair (`(IN1, IN2)` and
`(IN3, IN4)`, per `control_right_front`/`control_right_back`) is the
pin-by-pin logical inverse of the pattern written to a left-side pair
(`(IN7, IN8)` and `(IN5, IN6)`, per
`control_left_front`/`control_left_back`); and every wheel pair used by
any motion primitive is one of those four pairs, so the invariant covers
every direction primitive. -/
theorem C8_right_left_polarity_inversion :
    (∀ m ∈ drivenModes, ∀ lp ∈ leftWheelPairs, ∀ rp ∈ rightWheelPairs,
      set_motor_state rp.1 rp.2 m
        = Option.map invertPattern (set_motor_state lp.1 lp.2 m)) ∧
    (∀ p ∈ allMotionPrimitives, ∀ a ∈ p,
      a.1 ∈ leftWheelPairs ∨ a.1 ∈ rightWheelPairs) := by
  decide

/-- Witness for C8 at a concrete input: the right-front pair under
`MODE_FORWARD` gets the inverse of the left-front pattern. -/
theorem C8_polarity_witness :
    set_motor_state IN1 IN2 MODE_FORWARD
      = Option.map invertPattern (set_motor_state IN7 IN8 MODE_FORWARD) :=
  C8_right_left_polarity_inversion.1 MODE_FORWARD (by decide)
    (IN7, IN8) (by decide) (IN1, IN2) (by decide)

/-- Claim C3: from any queue state, submitting `"stop"` drains every
pending entry and enqueues the single stop entry — immediately after the
submission the queue is exactly `[(k, "stop")]` where `k` is the
submission index — and along every subsequent interleaving of submissions
and dequeues, every command that begins execution after that submission
has submission index at least `k`; hence no command submitted before the
stop ever begins execution after it. -/
theorem C3_stop_priority_drain (s : DispatchState) (evs : List QEvent) :
    (addCommand s "stop").queue = [(s.nextId, "stop")] ∧
    ∀ e ∈ (dispatchRun (addCommand s "stop") evs).execLog,
      e ∈ s.execLog ∨ s.nextId ≤ e.1 := by
  refine ⟨addCommand_stop_queue s, ?_⟩
  have h := idsBounded_run s.nextId s.execLog (addCommand s "stop") evs
    (idsBounded_after_stop s)
  exact h.2.2

/-- Witness for C3 at a concrete input: with one pending command of index
0, submitting `"stop"` (index 1) leaves the queue `[(1, "stop")]`, and the
entry executed by the next dequeue is the stop itself, whose index is at
least 1. -/
theorem C3_stop_priority_drain_witness :
    (addCommand ⟨[(0, "move_forward")], 1, []⟩ "stop").queue = [(1, "stop")] ∧
    ((1, "stop") ∈ ([] : List (ℕ × String)) ∨ 1 ≤ (1, "stop").1) := by
  refine ⟨(C3_stop_priority_drain ⟨[(0, "move_forward")], 1, []⟩ [QEvent.exec]).1, ?_⟩
  exact (C3_stop_priority_drain ⟨[(0, "move_forward")], 1, []⟩ [QEvent.exec]).2
    (1, "stop") (by decide)

/-- Claim C4 counterexample.  The claim says every `set_speed(pct)` call
unconditionally re-enables distance detection, resets the temperature and
empties the sample buffer.  But when the persisted speed already equals
the new clamped speed, `_save_speed` returns early out of its lock block
and the tail assignments are skipped: here `set_speed 50` on a state with
persisted speed 50 leaves detection disabled, the temperature at 25 and
the buffer `[12, 14]` intact. -/
theorem C4_set_speed_not_unconditional :
    (set_speed ⟨40, some 50, some false, some 25, some [12, 14], some 5⟩ 50).distance_detection_enabled
        = some false ∧
    (set_speed ⟨40, some 50, some false, some 25, some [12, 14], some 5⟩ 50).temperature
        = some 25 ∧
    (set_speed ⟨40, some 50, some false, some 25, some [12, 14], some 5⟩ 50).distance_buffer
        = some [12, 14] := by
  refine ⟨by rfl, by rfl, by rfl⟩

/-- Claim C4 as amended: every `set_speed(pct)` call clamps and stores
the speed, and — provided the persisted speed differs from the new clamped
value, so that `_save_speed` does not take its dedup early return — also
sets the detection-enabled flag to `True`, resets the temperature to the
default, and replaces the sample buffer by an empty one of capacity
`DISTANCE_BUFFER_SIZE`; in particular a speed change made while detection
is disabled re-enables obstacle detection and discards the median-filter
history. -/
theorem C4_set_speed_resets_unless_persisted_same (s : MotorState) (pct : ℤ)
    (h : s.persisted_speed ≠ some (clampSpeed pct)) :
    (set_speed s pct).current_speed = clampSpeed pct ∧
    (set_speed s pct).distance_detection_enabled = some true ∧
    (set_speed s pct).temperature = some DEFAULT_TEMPERATURE ∧
    (set_speed s pct).distance_buffer = some [] ∧
    (set_speed s pct).buffer_size = some DISTANCE_BUFFER_SIZE := by
  unfold set_speed save_speed
  simp [h]

/-- Witness for the amended claim C4 at a concrete input: persisted speed 40
differs from the clamped new speed 50, so the reset runs and re-enables
detection. -/
theorem C4_set_speed_resets_witness :
    (set_speed ⟨40, some 40, some false, some 25, some [12, 14], some 5⟩ 50).distance_detection_enabled
        = some true ∧
    (set_speed ⟨40, some 40, some false, some 25, some [12, 14], some 5⟩ 50).distance_buffer
        = some [] := by
  have h := C4_set_speed_resets_unless_persisted_same
    ⟨40, some 40, some false, some 25, some [12, 14], some 5⟩ 50 (by decide)
  exact ⟨h.2.1, h.2.2.2.1⟩

/-- Claim C5: on a fresh `MotorControl` whose `_load_speed` did not take
the legacy migration branch, the attributes `_distance_detection_enabled`,
`temperature`, `distance_buffer` and `buffer_size` are never assigned
(they are assigned only at the tail of `_save_speed`), so the first
`measure_distance()` call, before any `set_speed()`, raises
`AttributeError` for every echo-line behaviour instead of returning a
distance, `None`, or the `-1` sentinel. -/
theorem C5_fresh_measure_raises (p : Option ℤ) (env : EchoEnv) :
    (initMotorState p).distance_detection_enabled = none ∧
    (initMotorState p).temperature = none ∧
    (initMotorState p).distance_buffer = none ∧
    (initMotorState p).buffer_size = none ∧
    measure_distance (initMotorState p) env = Except.error "AttributeError" := by
  exact ⟨rfl, rfl, rfl, rfl, rfl⟩

/-- Claim C6: submitting `"move_back"` arms a grace period of fixed
duration `GRACE_PERIOD_DURATION = 2.0` seconds ending at submission time
plus 2; every monitor tick strictly before the expiry is skipped entirely
(no measurement, no stop, state unchanged); on the first tick at or after
expiry the flag is cleared and a measurement is taken; submitting `"stop"`
clears the grace period immediately.  Concretely, after `"move_back"` at
time 0, a 5 cm sample at time 1.0 triggers no stop and no measurement,
while the same sample at time 2.1 is measured and triggers a stop. -/
theorem C6_grace_period :
    (∀ (ms : MonitorState) (now : ℚ),
      addCommandGrace ms now "move_back"
        = { grace_active := true, grace_end := now + GRACE_PERIOD_DURATION }) ∧
    (∀ (ms : MonitorState) (now : ℚ) (dist : DistReading),
      ms.grace_active = true → now < ms.grace_end →
      distanceMonitorTick ms now dist = (ms, false, false)) ∧
    (∀ (ms : MonitorState) (now : ℚ) (dist : DistReading),
      ms.grace_active = true → ¬ now < ms.grace_end →
      (distanceMonitorTick ms now dist).1.grace_active = false ∧
        (distanceMonitorTick ms now dist).2.1 = true) ∧
    (∀ (ms : MonitorState) (now : ℚ),
      (addCommandGrace ms now "stop").grace_active = false) ∧
    GRACE_PERIOD_DURATION = 2 ∧
    distanceMonitorTick (addCommandGrace ⟨false, 0⟩ 0 "move_back") 1 (some 5)
      = (⟨true, 2⟩, false, false) ∧
    distanceMonitorTick (addCommandGrace ⟨false, 0⟩ 0 "move_back") (21/10) (some 5)
      = (⟨false, 2⟩, true, true) := by
  have P1 : ∀ (ms : MonitorState) (now : ℚ),
      addCommandGrace ms now "move_back"
        = { grace_active := true, grace_end := now + GRACE_PERIOD_DURATION } := by
    intro ms now
    unfold addCommandGrace
    rw [if_neg (by decide), if_pos rfl]
  have P2 : ∀ (ms : MonitorState) (now : ℚ) (dist : DistReading),
      ms.grace_active = true → now < ms.grace_end →
      distanceMonitorTick ms now dist = (ms, false, false) := by
    intro ms now dist h1 h2
    simp [distanceMonitorTick, h1, h2]
  have P3 : ∀ (ms : MonitorState) (now : ℚ) (dist : DistReading),
      ms.grace_active = true → ¬ now < ms.grace_end →
      (distanceMonitorTick ms now dist).1.grace_active = false ∧
        (distanceMonitorTick ms now dist).2.1 = true := by
    intro ms now dist h1 h2
    have ht : distanceMonitorTick ms now dist
        = monitorMeasureStep ⟨false, ms.grace_end⟩ dist := by
      simp [distanceMonitorTick, h1, h2]
    rw [ht]
    cases dist with
    | none => exact ⟨rfl, rfl⟩
    | some d =>
      by_cases hc : d ≠ -1 ∧ 0 < d ∧ d < DISTANCE_DETECTION_THRESHOLD <;>
        simp [monitorMeasureStep, hc]
  have harm : (0 : ℚ) + GRACE_PERIOD_DURATION = 2 := by
    norm_num [GRACE_PERIOD_DURATION]
  refine ⟨P1, P2, P3, ?_, rfl, ?_, ?_⟩
  · intro ms now
    unfold addCommandGrace
    rw [if_pos rfl]
  · rw [P1 ⟨false, 0⟩ 0, harm]
    exact P2 ⟨true, 2⟩ 1 (some 5) rfl (by norm_num)
  · rw [P1 ⟨false, 0⟩ 0, harm]
    norm_num [distanceMonitorTick, monitorMeasureStep, DISTANCE_DETECTION_THRESHOLD]

/-- Witness for C6: with a grace period ending at time 2, a tick at time 1
is skipped, and a tick at time 2.1 clears the flag and measures. -/
theorem C6_grace_period_witness :
    distanceMonitorTick ⟨true, 2⟩ 1 (some 5) = (⟨true, 2⟩, false, false) ∧
    (distanceMonitorTick ⟨true, 2⟩ (21/10) (some 5)).1.grace_active = false ∧
      (distanceMonitorTick ⟨true, 2⟩ (21/10) (some 5)).2.1 = true := by
  refine ⟨C6_grace_period.2.1 ⟨true, 2⟩ 1 (some 5) rfl (by norm_num), ?_⟩
  exact C6_grace_period.2.2.1 ⟨true, 2⟩ (21/10) (some 5) rfl (by norm_num)

/-- Claim C9: when the detection-enabled flag is `False`,
`measure_distance` returns `None` immediately, without touching the
hardware and with the whole state (in particular the sample buffer)
unchanged; when the wait for either echo edge times out, it returns the
`-1` failure sentinel for that call only and the state — hence the buffer
with its prior good samples — is left unchanged. -/
theorem C9_measure_disabled_and_timeout (s : MotorState) (env : EchoEnv) :
    (s.distance_detection_enabled = some false →
      measure_distance s env = Except.ok (none, s, false)) ∧
    (s.distance_detection_enabled = some true →
      (env = EchoEnv.riseTimeout ∨ env = EchoEnv.fallTimeout) →
      measure_distance s env = Except.ok (some (-1), s, true)) := by
  constructor
  · intro h
    simp [measure_distance, h]
  · intro h henv
    rcases henv with rfl | rfl <;> simp [measure_distance, h]

/-- Witness for C9: a disabled state returns `None` untouched; an enabled
state with a rising-edge timeout returns `-1` and keeps its buffer. -/
theorem C9_measure_witness :
    measure_distance ⟨50, some 50, some false, some 20, some [33], some 5⟩
        (EchoEnv.pulse 1)
      = Except.ok (none, ⟨50, some 50, some false, some 20, some [33], some 5⟩, false) ∧
    measure_distance ⟨50, some 50, some true, some 20, some [33], some 5⟩
        EchoEnv.riseTimeout
      = Except.ok (some (-1), ⟨50, some 50, some true, some 20, some [33], some 5⟩, true) := by
  exact ⟨(C9_measure_disabled_and_timeout _ _).1 rfl,
    (C9_measure_disabled_and_timeout _ _).2 rfl (Or.inl rfl)⟩

/-- Claim C10: on every successful measurement (both echo edges observed,
all attributes present, buffer within its capacity bound), the raw reading
is appended to the buffer, the oldest entry is evicted exactly when the
capacity `bs` is exceeded — the new buffer is the last `min (n+1) bs`
entries — and the returned value is the rounded median of the new buffer
contents, not the raw reading.  Concretely, with capacity
`DISTANCE_BUFFER_SIZE = 5`: five successful measurements of 50, 50, 50,
50 and 500 cm leave the buffer `[50, 50, 50, 50, 500]` and every call —
including the fifth, whose raw reading is 500 — returns 50: the outlier
is rejected. -/
theorem C10_median_filter (s : MotorState) (T : ℚ) (buf : List ℚ) (bs : ℕ) (d : ℚ)
    (hen : s.distance_detection_enabled = some true)
    (hT : s.temperature = some T) (hb : s.distance_buffer = some buf)
    (hbs : s.buffer_size = some bs) (hlen : buf.length ≤ bs) (hbs0 : 0 < bs) :
    measure_distance s (EchoEnv.pulse d)
      = Except.ok
          (some (round2 (median ((buf ++ [rawDistance T d]).drop (buf.length + 1 - bs)))),
            withBuffer s ((buf ++ [rawDistance T d]).drop (buf.length + 1 - bs)),
            true) ∧
    ((buf ++ [rawDistance T d]).drop (buf.length + 1 - bs)).length
        = min (buf.length + 1) bs ∧
    measureSeq ⟨50, some 50, some true, some 20, some [], some 5⟩
        [EchoEnv.pulse (50/17171), EchoEnv.pulse (50/17171), EchoEnv.pulse (50/17171),
          EchoEnv.pulse (50/17171), EchoEnv.pulse (500/17171)]
      = Except.ok (⟨50, some 50, some true, some 20, some [50, 50, 50, 50, 500], some 5⟩,
          [some 50, some 50, some 50, some 50, some 50]) ∧
    rawDistance 20 (500/17171) = 500 ∧
    DISTANCE_BUFFER_SIZE = 5 := by
  have hdrop := bufferUpdate_eq_drop buf (rawDistance T d) bs hlen
  have hne := bufferUpdate_ne_nil buf (rawDistance T d) bs hlen hbs0
  refine ⟨?_, bufferUpdate_length buf (rawDistance T d) bs hlen, ?_, ?_, rfl⟩
  · simp only [measure_distance, hen, hT, hb, hbs, withBuffer]
    rw [hdrop, if_pos hne]
  · have h1 : measure_distance ⟨50, some 50, some true, some 20, some [], some 5⟩
        (EchoEnv.pulse (50/17171))
        = Except.ok (some 50, ⟨50, some 50, some true, some 20, some [50], some 5⟩, true) := by
      norm_num [measure_distance, rawDistance, speedOfSound, round2, median, sortAsc,
        insertSorted, List.cons_ne_nil]
    have h2 : measure_distance ⟨50, some 50, some true, some 20, some [50], some 5⟩
        (EchoEnv.pulse (50/17171))
        = Except.ok (some 50, ⟨50, some 50, some true, some 20, some [50, 50], some 5⟩, true) := by
      norm_num [measure_distance, rawDistance, speedOfSound, round2, median, sortAsc,
        insertSorted, List.cons_ne_nil]
    have h3 : measure_distance ⟨50, some 50, some true, some 20, some [50, 50], some 5⟩
        (EchoEnv.pulse (50/17171))
        = Except.ok (some 50, ⟨50, some 50, some true, some 20, some [50, 50, 50], some 5⟩, true) := by
      norm_num [measure_distance, rawDistance, speedOfSound, round2, median, sortAsc,
        insertSorted, List.cons_ne_nil]
    have h4 : measure_distance ⟨50, some 50, some true, some 20, some [50, 50, 50], some 5⟩
        (EchoEnv.pulse (50/17171))
        = Except.ok (some 50, ⟨50, some 50, some true, some 20, some [50, 50, 50, 50], some 5⟩, true) := by
      norm_num [measure_distance, rawDistance, speedOfSound, round2, median, sortAsc,
        insertSorted, List.cons_ne_nil]
    have h5 : measure_distance ⟨50, some 50, some true, some 20, some [50, 50, 50, 50], some 5⟩
        (EchoEnv.pulse (500/17171))
        = Except.ok (some 50, ⟨50, some 50, some true, some 20, some [50, 50, 50, 50, 500], some 5⟩, true) := by
      norm_num [measure_distance, rawDistance, speedOfSound, round2, median, sortAsc,
        insertSorted, List.cons_ne_nil]
    simp only [measureSeq, h1, h2, h3, h4, h5]
  · norm_num [rawDistance, speedOfSound]

/-- Witness for C10 at a concrete input: starting from an empty buffer of
capacity 5, one successful measurement leaves a buffer of length
`min (0+1) 5`. -/
theorem C10_median_filter_witness :
    ((([] : List ℚ) ++ [rawDistance 20 (50/17171)]).drop
        (List.length ([] : List ℚ) + 1 - 5)).length
      = min (List.length ([] : List ℚ) + 1) 5 := by
  exact (C10_median_filter ⟨50, some 50, some true, some 20, some [], some 5⟩ 20 [] 5
    (50/17171) rfl rfl rfl rfl (by decide) (by decide)).2.1

end LittleEighteen
